import Mathlib

/-!
Shallow embedding of `src/start-dev-server.py`, a local development HTTP
server: a static file responder that injects fixed CORS/security headers,
a linear port-probe loop, a delayed one-shot browser launch, and a
lifecycle controller with console messaging.

Library side effects (socket probing, `os.path.exists`, the wall clock,
the serve loop outcome) are modelled as explicit parameters; the control
flow, string constants and branch structure are translated line by line
from the source.
-/

namespace DevServer

/-- Module-level constant `PORT = 8080` from the source. -/
def PORT : Nat := 8080

/-- Module-level constant `HOST = 'localhost'` from the source. -/
def HOST : String := "localhost"

/-! ## Static file responder: `CustomHTTPRequestHandler.end_headers`

`http.server` buffers each header appended by `send_header` and flushes
the buffer followed by a terminating blank line in the base class's
`end_headers`.  The override appends five fixed headers to whatever the
library already put in the buffer, then delegates to the base class. -/

/-- One `send_header(name, value)` call: appends a header to the buffer. -/
def sendHeader (buf : List (String × String)) (h : String × String) :
    List (String × String) :=
  buf ++ [h]

/-- The five fixed headers, in the order the override sends them. -/
def fixedHeaders : List (String × String) :=
  [("Access-Control-Allow-Origin", "*"),
   ("Access-Control-Allow-Methods", "GET, POST, OPTIONS"),
   ("Access-Control-Allow-Headers", "Content-Type"),
   ("X-Content-Type-Options", "nosniff"),
   ("X-Frame-Options", "DENY")]

/-- `CustomHTTPRequestHandler.end_headers`: the five `send_header` calls
performed on the current header buffer before delegating to
`super().end_headers()`. -/
def end_headers (buf : List (String × String)) : List (String × String) :=
  let buf := sendHeader buf ("Access-Control-Allow-Origin", "*")
  let buf := sendHeader buf ("Access-Control-Allow-Methods", "GET, POST, OPTIONS")
  let buf := sendHeader buf ("Access-Control-Allow-Headers", "Content-Type")
  let buf := sendHeader buf ("X-Content-Type-Options", "nosniff")
  let buf := sendHeader buf ("X-Frame-Options", "DENY")
  buf

/-- Wire form of one header line. -/
def formatHeader (h : String × String) : String := h.1 ++ ": " ++ h.2

/-- The head of an emitted response: the buffered headers after the
override ran, then the terminating blank line written by
`super().end_headers()`. -/
def emitResponseHead (libHeaders : List (String × String)) : List String :=
  (end_headers libHeaders).map formatHeader ++ [""]

/-! ## Port selector: `find_available_port`

`free p` models "`socketserver.TCPServer(("", p), None)` succeeds"
(the `try`/`except OSError` around the probe). -/

/-- `find_available_port(start_port, max_attempts)`: scan
`range(start_port, start_port + max_attempts)` ascending; return the
first port whose probe succeeds, else `None`. -/
def find_available_port (free : Nat → Bool) (start_port : Nat)
    (max_attempts : Nat) : Option Nat :=
  match max_attempts with
  | 0 => none
  | n + 1 =>
    if free start_port then some start_port
    else find_available_port free (start_port + 1) n

theorem find_available_port_iff (free : Nat → Bool) (P N q : Nat) :
    find_available_port free P N = some q ↔
      P ≤ q ∧ q < P + N ∧ free q = true ∧
        ∀ p, P ≤ p → p < q → free p = false := by
  induction N generalizing P with
  | zero =>
    simp only [find_available_port]
    constructor
    · intro h; exact Option.noConfusion h
    · rintro ⟨h1, h2, -, -⟩; omega
  | succ n ih =>
    simp only [find_available_port]
    by_cases h : free P
    · simp only [h, if_true]
      constructor
      · rintro ⟨rfl⟩
        exact ⟨Nat.le_refl _, by omega, h, fun p h1 h2 => absurd h1 (by omega)⟩
      · rintro ⟨h1, h2, h3, h4⟩
        rcases Nat.eq_or_lt_of_le h1 with rfl | hlt
        · rfl
        · have := h4 P (Nat.le_refl _) hlt
          rw [h] at this
          exact Bool.noConfusion this
    · have hP : free P = false := by
        cases hfp : free P with
        | false => rfl
        | true => exact absurd hfp h
      simp only [hP, Bool.false_eq_true, if_false]
      rw [ih]
      constructor
      · rintro ⟨h1, h2, h3, h4⟩
        refine ⟨by omega, by omega, h3, fun p hp1 hp2 => ?_⟩
        rcases Nat.eq_or_lt_of_le hp1 with rfl | hgt
        · exact hP
        · exact h4 p hgt hp2
      · rintro ⟨h1, h2, h3, h4⟩
        have hq : P ≠ q := by
          rintro rfl
          rw [h3] at hP
          exact Bool.noConfusion hP
        refine ⟨by omega, by omega, h3, fun p hp1 hp2 => h4 p (by omega) hp2⟩

theorem find_available_port_none (free : Nat → Bool) (P N : Nat)
    (h : ∀ p, P ≤ p → p < P + N → free p = false) :
    find_available_port free P N = none := by
  cases hf : find_available_port free P N with
  | none => rfl
  | some q =>
    rcases (find_available_port_iff free P N q).1 hf with ⟨h1, h2, h3, -⟩
    rw [h q h1 h2] at h3
    exact Bool.noConfusion h3

/-- C1: every HTTP response emitted by the static file responder carries
the five fixed headers, for every request path and method; they are
appended after the underlying library's own headers for that request and
come before the terminating blank line. -/
theorem cors_headers_on_every_response (method path : String)
    (libHeaders : String → String → List (String × String)) :
    emitResponseHead (libHeaders method path) =
      (libHeaders method path).map formatHeader ++
        fixedHeaders.map formatHeader ++ [""] ∧
    ∀ h ∈ fixedHeaders,
      formatHeader h ∈ emitResponseHead (libHeaders method path) := by
  have heq : emitResponseHead (libHeaders method path) =
      (libHeaders method path).map formatHeader ++
        fixedHeaders.map formatHeader ++ [""] := by
    simp [emitResponseHead, end_headers, sendHeader, fixedHeaders,
      List.append_assoc]
  refine ⟨heq, fun h hmem => ?_⟩
  rw [heq]
  exact List.mem_append_left _ (List.mem_append_right _ (List.mem_map_of_mem _ hmem))

/-- C2: `find_available_port` returns `some q` exactly when `q` is the
first free port in `[P, P + N)` (sequential ascending scan,
first-success wins); in particular a free starting port is returned
immediately. -/
theorem find_available_port_first_fit (free : Nat → Bool) (P N q : Nat) :
    (find_available_port free P N = some q ↔
      P ≤ q ∧ q < P + N ∧ free q = true ∧
        ∀ p, P ≤ p → p < q → free p = false) ∧
    (free P = true → 0 < N → find_available_port free P N = some P) := by
  refine ⟨find_available_port_iff free P N q, fun hfree hN => ?_⟩
  exact (find_available_port_iff free P N P).2
    ⟨Nat.le_refl _, by omega, hfree, fun p h1 h2 => absurd h1 (by omega)⟩

/-- Witness for C2: with every port free the scan started at 8080 with
budget 10 returns 8080 itself. -/
theorem find_available_port_first_fit_witness :
    find_available_port (fun _ => true) 8080 10 = some 8080 :=
  (find_available_port_first_fit (fun _ => true) 8080 10 8080).2 rfl (by decide)

/-! ## Observable events of the process

The remaining functions print, touch the filesystem, open sockets and
exit; they are embedded as producers of event traces.  Library calls are
parameters of the environment `Env`. -/

/-- One observable action of the process. `fsExists dir f r` records an
`os.path.exists(f)` call made while the working directory is `dir`,
returning `r`; `readLine` is the blocking `input(...)` call. -/
inductive Event where
  | print (s : String)
  | fsExists (dir : String) (file : String) (result : Bool)
  | readLine
  | chdir (dir : String)
  | probe (port : Nat) (ok : Bool)
  | bind (host : String) (port : Nat)
  | spawnBrowser
  | serve
  | sleepSec (n : Nat)
  | openURL (u : String)
  | exitCode (n : Nat)
deriving DecidableEq

/-- How the blocking `httpd.serve_forever()` call ends. -/
inductive ServeOutcome where
  | interrupted
  | error (msg : String)
deriving DecidableEq

/-- The ambient state the script reads: command-line arguments after the
program name, interpreter version, the directory the process was started
in, the directory holding the script, and the outcomes of the library
calls (`os.path.exists` given the current working directory, the socket
probe, the bind attempt, the serve loop). -/
structure Env where
  argv : List String
  version : Nat × Nat
  invocationDir : String
  scriptDir : String
  fileExists : String → String → Bool
  free : Nat → Bool
  bindOk : Nat → Bool
  bindErr : String
  serveOutcome : ServeOutcome

/-- `f"http://{HOST}:{PORT}"` — note: no trailing slash. -/
def server_url (host : String) (port : Nat) : String :=
  "http://" ++ host ++ ":" ++ toString port

/-- The socket probes performed by `find_available_port`: every failing
port scanned, then the first success (if any). -/
def probeEvents (free : Nat → Bool) (start_port : Nat) (max_attempts : Nat) :
    List Event :=
  match max_attempts with
  | 0 => []
  | n + 1 =>
    if free start_port then [Event.probe start_port true]
    else Event.probe start_port false :: probeEvents free (start_port + 1) n

/-- Python truthiness of `available_port` in `if available_port:`. -/
def truthy : Option Nat → Bool
  | none => false
  | some n => n != 0

/-- `available_port = find_available_port(PORT)` in `start_server`. -/
def available_port (free : Nat → Bool) : Option Nat :=
  find_available_port free PORT 10

/-- The value of the global `PORT` after the `if available_port:` block. -/
def resolvedPort (free : Nat → Bool) : Nat :=
  if truthy (available_port free) then (available_port free).getD PORT
  else PORT

/-- The message printed by the `if available_port:` block. -/
def portMsg (free : Nat → Bool) : Event :=
  if truthy (available_port free) then
    Event.print ("✅ 使用端口: " ++ toString (resolvedPort free))
  else Event.print "❌ 找不到可用端口，使用默认端口 8080"

/-- `"=" * 60`. -/
def sep : String := String.mk (List.replicate 60 '=')

/-- The status banner printed on entering the serving state. -/
def servingBanner (url : String) : List Event :=
  [Event.print sep,
   Event.print "🚀 FMH开发服务器启动成功!",
   Event.print sep,
   Event.print ("📡 服务器地址: " ++ url),
   Event.print ("🎯 管理面板: " ++ url ++ "/FMH-Management-Panel.html"),
   Event.print ("🔧 调试面板: " ++ url ++ "/FMH-Connection-Diagnostic.html"),
   Event.print sep,
   Event.print "💡 提示:",
   Event.print "  • 现在MetaMask弹窗应该可以正常显示",
   Event.print "  • 按 Ctrl+C 停止服务器",
   Event.print "  • 修改HTML文件后刷新浏览器即可看到更新",
   Event.print sep]

/-- `open_browser`, the body of the background thread: sleep two
seconds, then open exactly one page chosen by the first matching
existence check (performed in the working directory `cwd`). -/
def open_browser (cwd : String) (ex : String → String → Bool)
    (url : String) : List Event :=
  [Event.sleepSec 2, Event.print "🌐 正在打开浏览器..."] ++
  (if ex cwd "FMH-Management-Panel.html" then
    [Event.fsExists cwd "FMH-Management-Panel.html" true,
     Event.openURL (url ++ "/FMH-Management-Panel.html"),
     Event.print "✅ 已打开管理面板: FMH-Management-Panel.html"]
   else if ex cwd "FMH-Connection-Diagnostic.html" then
    [Event.fsExists cwd "FMH-Management-Panel.html" false,
     Event.fsExists cwd "FMH-Connection-Diagnostic.html" true,
     Event.openURL (url ++ "/FMH-Connection-Diagnostic.html"),
     Event.print "✅ 已打开诊断面板: FMH-Connection-Diagnostic.html"]
   else
    [Event.fsExists cwd "FMH-Management-Panel.html" false,
     Event.fsExists cwd "FMH-Connection-Diagnostic.html" false,
     Event.openURL url,
     Event.print "✅ 已打开服务器主页"])

/-- The browser thread as spawned by `start_server`: it runs after the
`os.chdir`, so its existence checks see the script's directory. -/
def browser_thread (env : Env) : List Event :=
  open_browser env.scriptDir env.fileExists
    (server_url HOST (resolvedPort env.free))

/-- `start_server()`: resolve the port (falling back to the default on
`None`), change into the script's directory, bind, print the banner,
spawn the browser thread and serve; `KeyboardInterrupt` exits 0, any
other exception (including a bind failure) exits 1. -/
def start_server (env : Env) : List Event :=
  probeEvents env.free PORT 10 ++ [portMsg env.free] ++
  [Event.chdir env.scriptDir,
   Event.print ("📁 工作目录: " ++ env.scriptDir)] ++
  (if env.bindOk (resolvedPort env.free) then
    [Event.bind HOST (resolvedPort env.free)] ++
    servingBanner (server_url HOST (resolvedPort env.free)) ++
    [Event.spawnBrowser, Event.print "⏳ 服务器运行中...", Event.serve] ++
    (match env.serveOutcome with
     | ServeOutcome.interrupted =>
       [Event.print "\n", Event.print sep,
        Event.print "👋 FMH开发服务器已停止", Event.print sep,
        Event.exitCode 0]
     | ServeOutcome.error msg =>
       [Event.print ("❌ 服务器启动失败: " ++ msg), Event.exitCode 1])
   else
    [Event.print ("❌ 服务器启动失败: " ++ env.bindErr), Event.exitCode 1])

/-- `files_to_check` in `check_files`. -/
def files_to_check : List String :=
  ["FMH-Management-Panel.html", "FMH-Connection-Diagnostic.html"]

/-- The `missing_files` list built by `check_files`, queried in the
current working directory `cwd`. -/
def missing_files (cwd : String) (ex : String → String → Bool) :
    List String :=
  files_to_check.filter (fun f => !(ex cwd f))

/-- The events of `check_files()`: one existence query per expected
file, then, when something is missing, the warning block. -/
def check_files_events (cwd : String) (ex : String → String → Bool) :
    List Event :=
  files_to_check.map (fun f => Event.fsExists cwd f (ex cwd f)) ++
  (if (missing_files cwd ex).isEmpty then []
   else
    [Event.print "⚠️ 以下文件不存在:"] ++
    (missing_files cwd ex).map (fun f => Event.print ("   - " ++ f)) ++
    [Event.print "💡 请确保HTML文件在当前目录中"])

/-- The boolean returned by `check_files()`. -/
def check_files (cwd : String) (ex : String → String → Bool) : Bool :=
  (missing_files cwd ex).isEmpty

/-- `"=" * 40`, the rule inside the help text. -/
def helpRule : String := String.mk (List.replicate 40 '=')

/-- The help text printed by `show_help()` (one `print` call). -/
def helpText : String :=
  "
🔧 FMH开发服务器使用说明
" ++ helpRule ++ "

基本用法:
  python3 start-dev-server.py          # 启动开发服务器
  python3 start-dev-server.py --help   # 显示此帮助

功能特点:
  ✅ 解决file://协议下MetaMask弹窗被拦截问题
  ✅ 自动查找可用端口（8080起）
  ✅ 添加必要的CORS和安全头部
  ✅ 自动打开浏览器
  ✅ 支持热重载（修改文件后刷新即可）

开发流程:
  1. 运行此脚本启动服务器
  2. 在浏览器中访问 http://localhost:8080
  3. 正常连接MetaMask进行测试
  4. 修改HTML文件，刷新浏览器查看效果
  5. 按Ctrl+C停止服务器

故障排除:
  • 如果端口被占用，脚本会自动找下一个可用端口
  • 确保Python3已安装
  • 确保HTML文件在脚本同一目录下
"

/-- `len(sys.argv) > 1 and sys.argv[1] in ['--help', '-h']`, with `argv`
the arguments after the program name. -/
def helpRequested (argv : List String) : Bool :=
  match argv.head? with
  | some a => a == "--help" || a == "-h"
  | none => false

/-- `sys.version_info < (3, 6)` on the (major, minor) pair. -/
def versionLt (v : Nat × Nat) : Bool :=
  Nat.blt v.1 3 || (v.1 == 3 && Nat.blt v.2 6)

/-- The `__main__` block: help flag, startup banner, version gate, file
check with interactive confirmation, then `start_server()`.  The file
check runs before `start_server`'s `os.chdir`, so it queries the
invocation directory. -/
def main (env : Env) : List Event :=
  if helpRequested env.argv then
    [Event.print helpText, Event.exitCode 0]
  else
    [Event.print "🚀 正在启动FMH开发服务器..."] ++
    (if versionLt env.version then
      [Event.print "❌ 需要Python 3.6或更高版本", Event.exitCode 1]
     else
      check_files_events env.invocationDir env.fileExists ++
      (if check_files env.invocationDir env.fileExists then []
       else
        [Event.print "💡 提示: 可以继续启动服务器，但建议先检查文件",
         Event.readLine]) ++
      start_server env)

/-- The exit codes occurring in a trace, in order. -/
def exitsOf (tr : List Event) : List Nat :=
  tr.filterMap (fun e => match e with
    | Event.exitCode n => some n
    | _ => none)

/-- The process exit status: the first `sys.exit` reached. -/
def exitOf (tr : List Event) : Option Nat :=
  (exitsOf tr).head?

/-- Events that open a network listener (probe sockets or the server
bind). -/
def opensListener : Event → Bool
  | Event.probe _ _ => true
  | Event.bind _ _ => true
  | _ => false

/-- The URLs passed to `webbrowser.open` in a trace, in order. -/
def urlsOpened (tr : List Event) : List String :=
  tr.filterMap (fun e => match e with
    | Event.openURL u => some u
    | _ => none)

theorem exitsOf_append (a b : List Event) :
    exitsOf (a ++ b) = exitsOf a ++ exitsOf b :=
  List.filterMap_append a b _

theorem exitsOf_probeEvents (free : Nat → Bool) (s n : Nat) :
    exitsOf (probeEvents free s n) = [] := by
  induction n generalizing s with
  | zero => rfl
  | succ k ih =>
    by_cases h : free s
    · simp [probeEvents, h, exitsOf, List.filterMap_cons]
    · simp only [probeEvents, h, Bool.false_eq_true, if_false]
      simpa [exitsOf, List.filterMap_cons] using ih (s + 1)

theorem exitsOf_portMsg (free : Nat → Bool) :
    exitsOf [portMsg free] = [] := by
  unfold portMsg
  split <;> rfl

theorem exitsOf_start_server (env : Env) :
    exitsOf (start_server env) =
      if env.bindOk (resolvedPort env.free) then
        match env.serveOutcome with
        | ServeOutcome.interrupted => [0]
        | ServeOutcome.error _ => [1]
      else [1] := by
  unfold start_server
  rw [exitsOf_append, exitsOf_append, exitsOf_append,
    exitsOf_probeEvents, exitsOf_portMsg]
  cases h : env.bindOk (resolvedPort env.free) with
  | false => simp [exitsOf]
  | true =>
    cases ho : env.serveOutcome <;>
      simp [exitsOf, exitsOf_append, servingBanner, List.filterMap_cons]

/-- C3: when every probed port is taken the selector returns `None`, the
controller prints the fallback message, keeps the original default port
8080, and still reaches the bind step; only a bind failure on that
fallback port is fatal (exit 1). -/
theorem port_exhausted_falls_back (env : Env)
    (h : ∀ p, 8080 ≤ p → p < 8090 → env.free p = false) :
    find_available_port env.free PORT 10 = none ∧
    Event.print "❌ 找不到可用端口，使用默认端口 8080" ∈ start_server env ∧
    resolvedPort env.free = 8080 ∧
    (env.bindOk 8080 = true → Event.bind HOST 8080 ∈ start_server env) ∧
    (env.bindOk 8080 = false → exitOf (start_server env) = some 1) := by
  have hnone : find_available_port env.free PORT 10 = none :=
    find_available_port_none env.free PORT 10 (by simpa [PORT] using h)
  have hap : available_port env.free = none := hnone
  have hres : resolvedPort env.free = 8080 := by
    simp [resolvedPort, hap, truthy, PORT]
  have hmsg : portMsg env.free =
      Event.print "❌ 找不到可用端口，使用默认端口 8080" := by
    simp [portMsg, hap, truthy]
  refine ⟨hnone, ?_, hres, fun hb => ?_, fun hb => ?_⟩
  · unfold start_server
    rw [hmsg]
    simp
  · unfold start_server
    rw [hres, hb]
    simp
  · rw [exitOf, exitsOf_start_server, hres, hb]
    rfl

/-- Environment used to witness C3: every port taken, bind on the
fallback port succeeds. -/
def envC3 : Env :=
  { argv := []
    version := (3, 9)
    invocationDir := "/home/user"
    scriptDir := "/app"
    fileExists := fun _ _ => true
    free := fun _ => false
    bindOk := fun _ => true
    bindErr := ""
    serveOutcome := ServeOutcome.interrupted }

/-- Witness for C3: in `envC3` the controller reaches the bind step on
port 8080. -/
theorem port_exhausted_falls_back_witness :
    Event.bind HOST 8080 ∈ start_server envC3 :=
  (port_exhausted_falls_back envC3 (fun _ _ _ => rfl)).2.2.2.1 rfl

/-- C4 (amended): the browser launcher first sleeps two seconds, then
opens exactly one URL, chosen by the first matching branch: the
management-panel URL when `FMH-Management-Panel.html` exists in the
working directory, else the diagnostic URL when
`FMH-Connection-Diagnostic.html` exists, else the bare server URL
`http://{host}:{port}` with no trailing slash. -/
theorem browser_opens_one_url (cwd : String) (ex : String → String → Bool)
    (host : String) (port : Nat) :
    (open_browser cwd ex (server_url host port)).head? =
      some (Event.sleepSec 2) ∧
    urlsOpened (open_browser cwd ex (server_url host port)) =
      [if ex cwd "FMH-Management-Panel.html" then
         server_url host port ++ "/FMH-Management-Panel.html"
       else if ex cwd "FMH-Connection-Diagnostic.html" then
         server_url host port ++ "/FMH-Connection-Diagnostic.html"
       else server_url host port] := by
  refine ⟨rfl, ?_⟩
  by_cases h1 : ex cwd "FMH-Management-Panel.html" <;>
    by_cases h2 : ex cwd "FMH-Connection-Diagnostic.html" <;>
    simp [open_browser, urlsOpened, h1, h2, List.filterMap_cons]

/-- Counterexample for C4 as stated: with both panel files absent the
launcher opens `http://localhost:8080`, which is not the claimed bare
root URL `http://localhost:8080/` with trailing slash. -/
theorem browser_root_url_counterexample :
    urlsOpened (open_browser "/app" (fun _ _ => false)
        (server_url "localhost" 8080)) = ["http://localhost:8080"] ∧
    ("http://localhost:8080" : String) ≠ "http://localhost:8080/" := by
  refine ⟨by decide, by decide⟩

/-- C5: with the listener bound, an interrupt while serving prints the
shutdown banner and exits 0, and any other serving exception prints the
error message and exits 1; a startup (bind) exception likewise prints
the error and exits 1. -/
theorem serve_exit_codes (env : Env) :
    (env.bindOk (resolvedPort env.free) = true →
      (env.serveOutcome = ServeOutcome.interrupted →
        exitOf (start_server env) = some 0 ∧
        Event.print "👋 FMH开发服务器已停止" ∈ start_server env) ∧
      (∀ msg, env.serveOutcome = ServeOutcome.error msg →
        exitOf (start_server env) = some 1 ∧
        Event.print ("❌ 服务器启动失败: " ++ msg) ∈ start_server env)) ∧
    (env.bindOk (resolvedPort env.free) = false →
      exitOf (start_server env) = some 1 ∧
      Event.print ("❌ 服务器启动失败: " ++ env.bindErr) ∈ start_server env) := by
  constructor
  · intro hbind
    constructor
    · intro ho
      constructor
      · rw [exitOf, exitsOf_start_server, hbind, ho]
        rfl
      · unfold start_server
        rw [hbind, ho]
        simp
    · intro msg ho
      constructor
      · rw [exitOf, exitsOf_start_server, hbind, ho]
        rfl
      · unfold start_server
        rw [hbind, ho]
        simp
  · intro hbind
    constructor
    · rw [exitOf, exitsOf_start_server, hbind]
      rfl
    · unfold start_server
      rw [hbind]
      simp

/-- Environment used to witness C5: port 8080 free, bind succeeds, the
serve loop ends on an interrupt. -/
def envC5 : Env :=
  { argv := []
    version := (3, 9)
    invocationDir := "/home/user"
    scriptDir := "/app"
    fileExists := fun _ _ => true
    free := fun _ => true
    bindOk := fun _ => true
    bindErr := ""
    serveOutcome := ServeOutcome.interrupted }

/-- Witness for C5: in `envC5` the interrupt exits with status 0 and the
shutdown banner is printed. -/
theorem serve_exit_codes_witness :
    exitOf (start_server envC5) = some 0 ∧
    Event.print "👋 FMH开发服务器已停止" ∈ start_server envC5 :=
  ((serve_exit_codes envC5).1 rfl).1 rfl

/-- C6: invoking the program with `--help` or `-h` as its argument
prints the help text to standard output and exits 0 without opening any
network listener or entering the serve loop. -/
theorem help_flag_exits_zero (env : Env)
    (h : env.argv.head? = some "--help" ∨ env.argv.head? = some "-h") :
    main env = [Event.print helpText, Event.exitCode 0] ∧
    helpText ≠ "" ∧
    exitOf (main env) = some 0 ∧
    ∀ e ∈ main env, opensListener e = false ∧ e ≠ Event.serve := by
  have hh : helpRequested env.argv = true := by
    rcases h with h | h <;> simp [helpRequested, h]
  have hm : main env = [Event.print helpText, Event.exitCode 0] := by
    simp [main, hh]
  refine ⟨hm, by decide, by rw [exitOf, hm]; rfl, ?_⟩
  rw [hm]
  intro e he
  rcases List.mem_cons.1 he with rfl | he
  · exact ⟨rfl, by simp⟩
  rcases List.mem_cons.1 he with rfl | he
  · exact ⟨rfl, by simp⟩
  · cases he

/-- Environment used to witness C6: invoked as `program --help`. -/
def envC6 : Env :=
  { argv := ["--help"]
    version := (3, 9)
    invocationDir := "/home/user"
    scriptDir := "/app"
    fileExists := fun _ _ => true
    free := fun _ => true
    bindOk := fun _ => true
    bindErr := ""
    serveOutcome := ServeOutcome.interrupted }

/-- Witness for C6: with `--help` the whole trace is the help print and
`sys.exit(0)`. -/
theorem help_flag_exits_zero_witness :
    main envC6 = [Event.print helpText, Event.exitCode 0] :=
  (help_flag_exits_zero envC6 (Or.inl rfl)).1

/-- C7 (amended): the working directory is changed to the script's
directory only inside server startup, after the startup file-existence
check has already run; the startup check queries the invocation-time
working directory, while the browser launcher's existence checks (which
run after the change) use the script's directory. -/
theorem chdir_after_startup_check (env : Env)
    (h1 : helpRequested env.argv = false)
    (h2 : versionLt env.version = false) :
    ∃ pre post,
      main env = pre ++ Event.chdir env.scriptDir :: post ∧
      Event.fsExists env.invocationDir "FMH-Management-Panel.html"
          (env.fileExists env.invocationDir "FMH-Management-Panel.html") ∈ pre ∧
      ∀ cwd f r, Event.fsExists cwd f r ∈ browser_thread env →
        cwd = env.scriptDir := by
  obtain ⟨tail, ht⟩ : ∃ tail, start_server env =
      probeEvents env.free PORT 10 ++ [portMsg env.free] ++
      Event.chdir env.scriptDir ::
        Event.print ("📁 工作目录: " ++ env.scriptDir) :: tail :=
    ⟨(if env.bindOk (resolvedPort env.free) then
        [Event.bind HOST (resolvedPort env.free)] ++
        servingBanner (server_url HOST (resolvedPort env.free)) ++
        [Event.spawnBrowser, Event.print "⏳ 服务器运行中...", Event.serve] ++
        (match env.serveOutcome with
         | ServeOutcome.interrupted =>
           [Event.print "\n", Event.print sep,
            Event.print "👋 FMH开发服务器已停止", Event.print sep,
            Event.exitCode 0]
         | ServeOutcome.error msg =>
           [Event.print ("❌ 服务器启动失败: " ++ msg), Event.exitCode 1])
      else
        [Event.print ("❌ 服务器启动失败: " ++ env.bindErr),
         Event.exitCode 1]),
     by unfold start_server; simp [List.append_assoc]⟩
  refine ⟨[Event.print "🚀 正在启动FMH开发服务器..."] ++
      check_files_events env.invocationDir env.fileExists ++
      (if check_files env.invocationDir env.fileExists then []
       else [Event.print "💡 提示: 可以继续启动服务器，但建议先检查文件",
             Event.readLine]) ++
      probeEvents env.free PORT 10 ++ [portMsg env.free],
    Event.print ("📁 工作目录: " ++ env.scriptDir) :: tail, ?_, ?_, ?_⟩
  · simp only [main, h1, h2, Bool.false_eq_true, if_false, ht]
    simp [List.append_assoc]
  · simp [check_files_events, files_to_check]
  · intro cwd f r hm
    unfold browser_thread open_browser at hm
    by_cases e1 : env.fileExists env.scriptDir "FMH-Management-Panel.html" <;>
      by_cases e2 : env.fileExists env.scriptDir "FMH-Connection-Diagnostic.html" <;>
      simp [e1, e2] at hm <;> tauto

/-- Environment used for the C7 counterexample and the C7 witness
family: started from `/home/user` while the script lives in `/app`, both
panel files absent, port 8080 free. -/
def envC7 : Env :=
  { argv := []
    version := (3, 9)
    invocationDir := "/home/user"
    scriptDir := "/app"
    fileExists := fun _ _ => false
    free := fun _ => true
    bindOk := fun _ => true
    bindErr := ""
    serveOutcome := ServeOutcome.interrupted }

/-- Counterexample for C7 as stated: the startup file-existence check
(trace position 1) runs in the invocation directory `/home/user`, before
the `os.chdir` to the script directory `/app` (trace position 11), so
not every filesystem operation sees the script's directory. -/
theorem chdir_order_counterexample :
    (main envC7)[1]? =
      some (Event.fsExists "/home/user" "FMH-Management-Panel.html" false) ∧
    (main envC7)[11]? = some (Event.chdir "/app") ∧
    ("/home/user" : String) ≠ "/app" :=
  ⟨rfl, rfl, by decide⟩

/-- Witness for C7 (amended): in `envC7` the trace splits around the
`chdir`, with the startup check in the prefix. -/
theorem chdir_after_startup_check_witness :
    ∃ pre post,
      main envC7 = pre ++ Event.chdir envC7.scriptDir :: post ∧
      Event.fsExists envC7.invocationDir "FMH-Management-Panel.html"
          (envC7.fileExists envC7.invocationDir "FMH-Management-Panel.html")
        ∈ pre ∧
      ∀ cwd f r, Event.fsExists cwd f r ∈ browser_thread envC7 →
        cwd = envC7.scriptDir :=
  chdir_after_startup_check envC7 rfl rfl

/-- C8: when an expected HTML file is missing at startup, a warning
naming each missing file is printed, a blocking interactive confirmation
(`input`) follows, and after it the server is still started (the serve
loop is reached when the bind succeeds). -/
theorem missing_files_warn_and_continue (env : Env)
    (h1 : helpRequested env.argv = false)
    (h2 : versionLt env.version = false)
    (h3 : check_files env.invocationDir env.fileExists = false) :
    Event.print "⚠️ 以下文件不存在:" ∈ main env ∧
    (∀ f ∈ missing_files env.invocationDir env.fileExists,
      Event.print ("   - " ++ f) ∈ main env) ∧
    (∃ pre, main env = pre ++ Event.readLine :: start_server env) ∧
    (env.bindOk (resolvedPort env.free) = true →
      Event.serve ∈ main env) := by
  have hne : (missing_files env.invocationDir env.fileExists).isEmpty = false := h3
  have hmain : main env =
      [Event.print "🚀 正在启动FMH开发服务器..."] ++
      check_files_events env.invocationDir env.fileExists ++
      [Event.print "💡 提示: 可以继续启动服务器，但建议先检查文件",
       Event.readLine] ++
      start_server env := by
    simp [main, h1, h2, h3]
  have hwarn : Event.print "⚠️ 以下文件不存在:" ∈
      check_files_events env.invocationDir env.fileExists := by
    unfold check_files_events
    rw [hne]
    simp [files_to_check]
  refine ⟨?_, ?_, ?_, ?_⟩
  · rw [hmain]
    exact List.mem_append_left _
      (List.mem_append_left _ (List.mem_append_right _ hwarn))
  · intro f hf
    rw [hmain]
    refine List.mem_append_left _
      (List.mem_append_left _ (List.mem_append_right _ ?_))
    unfold check_files_events
    rw [hne]
    simp only [Bool.false_eq_true, if_false]
    exact List.mem_append_right _ (List.mem_append_left _
      (List.mem_append_right _ (List.mem_map_of_mem _ hf)))
  · refine ⟨[Event.print "🚀 正在启动FMH开发服务器..."] ++
      check_files_events env.invocationDir env.fileExists ++
      [Event.print "💡 提示: 可以继续启动服务器，但建议先检查文件"], ?_⟩
    rw [hmain]
    simp [List.append_assoc]
  · intro hb
    rw [hmain]
    refine List.mem_append_right _ ?_
    unfold start_server
    rw [hb]
    simp [servingBanner]

/-- Environment used to witness C8: both panel files missing, port 8080
free, bind succeeds. -/
def envC8 : Env :=
  { argv := []
    version := (3, 9)
    invocationDir := "/home/user"
    scriptDir := "/app"
    fileExists := fun _ _ => false
    free := fun _ => true
    bindOk := fun _ => true
    bindErr := ""
    serveOutcome := ServeOutcome.interrupted }

/-- Witness for C8: with both files missing the warning header is
printed. -/
theorem missing_files_warn_and_continue_witness :
    Event.print "⚠️ 以下文件不存在:" ∈ main envC8 :=
  (missing_files_warn_and_continue envC8 rfl rfl rfl).1

/-- C10: under an interpreter older than 3.6 (and without the help
flag), the run prints the startup banner and the version error and exits
1 — no file check, no port probe, no listener, no serve loop. -/
theorem old_python_exits_one (env : Env)
    (h1 : helpRequested env.argv = false)
    (h2 : versionLt env.version = true) :
    main env = [Event.print "🚀 正在启动FMH开发服务器...",
                Event.print "❌ 需要Python 3.6或更高版本",
                Event.exitCode 1] ∧
    exitOf (main env) = some 1 ∧
    ∀ e ∈ main env, opensListener e = false ∧
      (∀ cwd f r, e ≠ Event.fsExists cwd f r) ∧ e ≠ Event.serve := by
  have hm : main env = [Event.print "🚀 正在启动FMH开发服务器...",
      Event.print "❌ 需要Python 3.6或更高版本", Event.exitCode 1] := by
    simp [main, h1, h2]
  refine ⟨hm, by rw [exitOf, hm]; rfl, ?_⟩
  rw [hm]
  intro e he
  rcases List.mem_cons.1 he with rfl | he
  · exact ⟨rfl, fun _ _ _ => by simp, by simp⟩
  rcases List.mem_cons.1 he with rfl | he
  · exact ⟨rfl, fun _ _ _ => by simp, by simp⟩
  rcases List.mem_cons.1 he with rfl | he
  · exact ⟨rfl, fun _ _ _ => by simp, by simp⟩
  · cases he

/-- Environment used to witness C10: Python 2.7, no arguments. -/
def envC10 : Env :=
  { argv := []
    version := (2, 7)
    invocationDir := "/home/user"
    scriptDir := "/app"
    fileExists := fun _ _ => true
    free := fun _ => true
    bindOk := fun _ => true
    bindErr := ""
    serveOutcome := ServeOutcome.interrupted }

/-- Witness for C10: under Python 2.7 the whole trace is the banner, the
version error and `sys.exit(1)`. -/
theorem old_python_exits_one_witness :
    main envC10 = [Event.print "🚀 正在启动FMH开发服务器...",
                   Event.print "❌ 需要Python 3.6或更高版本",
                   Event.exitCode 1] :=
  (old_python_exits_one envC10 rfl rfl).1

/-! ## Request logging: `CustomHTTPRequestHandler.log_message`

The override prints `f"[{time.strftime('%H:%M:%S')}] {format % args}"`.
`time.strftime('%H:%M:%S')` renders the local-time hour, minute and
second as two-digit zero-padded fields separated by colons; the library
hands `log_message` its default request log line (method, path, status)
as `format % args`, modelled as the opaque string `msg`. -/

/-- A two-digit zero-padded field of `strftime`. -/
def pad2 (n : Nat) : String :=
  if n < 10 then "0" ++ toString n else toString n

/-- `time.strftime('%H:%M:%S')` at local time `h:m:s`. -/
def strftime_HMS (h m s : Nat) : String :=
  pad2 h ++ ":" ++ pad2 m ++ ":" ++ pad2 s

/-- The line printed by the `log_message` override for the library's
default request log content `msg`. -/
def log_message (h m s : Nat) (msg : String) : String :=
  "[" ++ strftime_HMS h m s ++ "] " ++ msg

theorem pad2_length (n : Nat) (h : n < 100) : (pad2 n).length = 2 := by
  interval_cases n <;> decide

theorem pad2_no_newline (n : Nat) (h : n < 100) :
    (pad2 n).data.all (fun c => c != '\n') = true := by
  interval_cases n <;> decide

/-- C9: each handled request produces a single line: an 8-character
`HH:MM:SS` local-time timestamp in brackets, then the library's default
request log content; the line contains no newline when the content does
not. -/
theorem request_log_format (h m s : Nat) (msg : String)
    (hh : h < 24) (hm : m < 60) (hs : s < 60)
    (hmsg : msg.data.all (fun c => c != '\n') = true) :
    log_message h m s msg = "[" ++ strftime_HMS h m s ++ "] " ++ msg ∧
    strftime_HMS h m s = pad2 h ++ ":" ++ pad2 m ++ ":" ++ pad2 s ∧
    (strftime_HMS h m s).length = 8 ∧
    (log_message h m s msg).data.all (fun c => c != '\n') = true := by
  have hstrf : (strftime_HMS h m s).data.all (fun c => c != '\n') = true := by
    unfold strftime_HMS
    simp only [String.data_append, List.all_append, Bool.and_eq_true]
    refine ⟨⟨⟨⟨pad2_no_newline h (by omega), by decide⟩,
      pad2_no_newline m (by omega)⟩, by decide⟩,
      pad2_no_newline s (by omega)⟩
  refine ⟨rfl, rfl, ?_, ?_⟩
  · unfold strftime_HMS
    rw [String.length_append, String.length_append, String.length_append,
      String.length_append, pad2_length h (by omega),
      pad2_length m (by omega), pad2_length s (by omega)]
    rfl
  · unfold log_message
    simp only [String.data_append, List.all_append, Bool.and_eq_true]
    exact ⟨⟨⟨by decide, hstrf⟩, by decide⟩, hmsg⟩

/-- Witness for C9: the log line for a request handled at 09:05:07. -/
theorem request_log_format_witness :
    log_message 9 5 7 "\x22GET /FMH-Management-Panel.html HTTP/1.1\x22 200 -" =
      "[" ++ strftime_HMS 9 5 7 ++ "] " ++
        "\x22GET /FMH-Management-Panel.html HTTP/1.1\x22 200 -" ∧
    strftime_HMS 9 5 7 = pad2 9 ++ ":" ++ pad2 5 ++ ":" ++ pad2 7 ∧
    (strftime_HMS 9 5 7).length = 8 ∧
    (log_message 9 5 7
        "\x22GET /FMH-Management-Panel.html HTTP/1.1\x22 200 -").data.all
      (fun c => c != '\n') = true :=
  request_log_format 9 5 7 "\x22GET /FMH-Management-Panel.html HTTP/1.1\x22 200 -"
    (by decide) (by decide) (by decide) (by decide)

end DevServer
